import Mathlib

/-
Verification of the hpp-manipulation path-validation core against its
specification.

Shallow embedding of:
  - src/src/graph-path-validation.cc   (GraphPathValidation::validate and
    the two impl_validate overloads),
  - src/include/hpp/manipulation/graph/graph.hh  (the Graph interface used
    by validation: classification and selector lookup),
  - src/unnamed/part_000 (handle.hh: the Handle class).

Modelling conventions:
  - Configurations, graph states, selectors and joints are identified by
    plain values (Int / Nat / names); classification
    (Graph::getState) is an opaque function of the graph, since graph.cc is
    not among the sources.
  - Times are rationals. A path exposes its time range, pointwise
    evaluation that may fail to converge (Option), its constraints and its
    output sizes, following the hpp::core::Path interface the code uses.
  - A dynamic cast of a path's constraints to hpp::manipulation's
    ConstraintSet is modelled by the PathConstraints type: the
    manipulation alternative carries the edge (as an id resolved by an
    EdgeEnv environment standing for the heap of edge objects), any other
    constraint object is the plain alternative.
  - C++ exceptions escaping impl_validate (std::logic_error thrown at the
    uncaught sites) are modelled by Except.error; the one caught
    classification failure is handled inside, as in the code.
  - Release-build semantics: assert(...) statements and hppDout logging
    are no-ops and are not modelled.
-/

namespace HppManipulation

/-- A robot configuration, identified abstractly. -/
abbrev Config := Int

/-- A graph state (graph::StatePtr_t compared by pointer identity). -/
abbrev StateId := Nat

/-- Result of the dynamic cast of a path's constraints performed at
graph-path-validation.cc:124: either hpp::manipulation's ConstraintSet,
which carries an edge, or some other constraint object. -/
inductive PathConstraints where
  | manipulation (edgeId : Nat)
  | plain
deriving DecidableEq

/-- A non-composite hpp::core path, as used by impl_validate: time range,
evaluation (operator(), which reports success), constraints (possibly
null), output sizes. -/
structure AtomicPath where
  timeRange : ℚ × ℚ
  eval : ℚ → Option Config
  constraints : Option PathConstraints
  outputSize : Nat
  outputDerivativeSize : Nat

mutual

/-- An hpp::core path: either non-composite, or a PathVector with its
ranked sub-paths (the dynamic cast at graph-path-validation.cc:119). -/
inductive Path where
  | atomic (a : AtomicPath)
  | vector (outputSize outputDerivativeSize : Nat) (paths : PathList)

/-- The ranked sub-paths of a PathVector. -/
inductive PathList where
  | nil
  | cons (head : Path) (tail : PathList)

end

/-- PathVector::numberPaths. -/
def PathList.length : PathList → Nat
  | .nil => 0
  | .cons _ ps => ps.length + 1

/-- Concatenation of sub-path lists. -/
def PathList.append : PathList → PathList → PathList
  | .nil, l => l
  | .cons p ps, l => .cons p (ps.append l)

/-- n repeated copies of one path (used to describe what the reverse
composite loop builds). -/
def PathList.replicate : Nat → Path → PathList
  | 0, _ => .nil
  | n + 1, p => .cons p (PathList.replicate n p)

/-- Conversion from an ordinary list, for stating theorems. -/
def PathList.ofList : List Path → PathList
  | [] => .nil
  | p :: ps => .cons p (PathList.ofList ps)

mutual

/-- Length of a path's time range; for a PathVector, the sum of the
sub-path lengths. -/
def Path.length : Path → ℚ
  | .atomic a => a.timeRange.2 - a.timeRange.1
  | .vector _ _ ps => PathList.lengthSum ps

/-- Sum of the time-range lengths of a list of sub-paths. -/
def PathList.lengthSum : PathList → ℚ
  | .nil => 0
  | .cons p ps => Path.length p + PathList.lengthSum ps

end

/-- Path::timeRange; a PathVector is parameterized on [0, total length]. -/
def Path.timeRange : Path → ℚ × ℚ
  | .atomic a => a.timeRange
  | .vector _ _ ps => (0, PathList.lengthSum ps)

mutual

/-- Path::operator() — evaluation that may fail to converge. -/
def Path.eval : Path → ℚ → Option Config
  | .atomic a, t => a.eval t
  | .vector _ _ ps, t => PathList.evalAt ps t

/-- Evaluation of a PathVector: locate the sub-path containing the
parameter (counted from 0) and evaluate it at the local time. -/
def PathList.evalAt : PathList → ℚ → Option Config
  | .nil, _ => none
  | .cons p ps, t =>
    if t ≤ Path.length p then Path.eval p ((Path.timeRange p).1 + t)
    else PathList.evalAt ps (t - Path.length p)

end

/-- Path::extract on a non-composite path: same path restricted to the
given parameter interval (used only as extract(t, t) in the code). -/
def AtomicPath.extract (a : AtomicPath) (t0 t1 : ℚ) : AtomicPath :=
  { a with timeRange := (t0, t1) }

/-- A node selector (one per end-effector), identified by its name. -/
structure NodeSelector where
  name : String

/-- The constraint graph as validation and lookup see it: its owned node
selectors and its configuration classifier.  The bodies of getState /
getNodeSelectorByName live in graph.cc, which is not among the sources;
classification is therefore an opaque function that may fail to converge
(none models the std::logic_error it throws in that case). -/
structure Graph where
  nodeSelectors_ : List NodeSelector
  getState : Config → Option StateId

/-- A continuous path validator:
validate(path, reverse) → (success, validPart). -/
abbrev PathValidation := Path → Bool → Bool × Path

/-- The part of a graph edge that impl_validate consults: its own path
validation. -/
structure Edge where
  pathValidation : PathValidation

/-- Environment resolving the edge id stored in a manipulation
ConstraintSet to the edge object (c->edge() in the code). -/
structure EdgeEnv where
  edge : Nat → Edge

/-- GraphPathValidation's state: the externally supplied delegate
continuous validator and the constraint graph. -/
structure GraphPathValidation where
  pathValidation_ : PathValidation
  constraintGraph_ : Graph

/-- Lines 124-128 of graph-path-validation.cc: the continuous validator
used for a non-composite path — the edge's own path validation when the
path's constraints cast to a manipulation ConstraintSet, else the
delegate supplied at construction. -/
def chosenValidation (gpv : GraphPathValidation) (env : EdgeEnv)
    (a : AtomicPath) : PathValidation :=
  match a.constraints with
  | some (.manipulation eid) => (env.edge eid).pathValidation
  | _ => gpv.pathValidation_

/-- Lines 130-206 of graph-path-validation.cc: validation of a
non-composite path with an already chosen continuous validator.
Except.error models a std::logic_error escaping the call; the only
caught failure is the classification of the valid part's end
configuration (lines 160-171). -/
def implValidateCore (validation : PathValidation) (g : Graph)
    (a : AtomicPath) (reverse : Bool) : Except String (Bool × Path) :=
  match validation (Path.atomic a) reverse with
  | (true, _) => .ok (true, Path.atomic a)
  | (false, pathNoCollision) =>
    match pathNoCollision.eval pathNoCollision.timeRange.1 with
    | none => .error "Initial configuration of the valid part cannot be projected."
    | some qNewInit =>
      match g.getState qNewInit with
      | none => .error "getState failed on the initial configuration of the valid part."
      | some origState =>
        match pathNoCollision.eval pathNoCollision.timeRange.2 with
        | none => .error "End configuration of the valid part cannot be projected."
        | some qNewEnd =>
          match g.getState qNewEnd with
          | none => .ok (false, Path.atomic (a.extract a.timeRange.1 a.timeRange.1))
          | some destState =>
            match a.eval a.timeRange.1 with
            | none => .error "Initial configuration of the path to be validated failed to be projected."
            | some qOldInit =>
              match g.getState qOldInit with
              | none => .error "getState failed on the initial configuration of the path."
              | some oldOstate =>
                match a.eval a.timeRange.2 with
                | none => .error "End configuration of the path to be validated failed to be projected."
                | some qOldEnd =>
                  match g.getState qOldEnd with
                  | none => .error "getState failed on the end configuration of the path."
                  | some oldDstate =>
                    if origState = oldOstate ∧ destState = oldDstate then
                      .ok (false, pathNoCollision)
                    else
                      .ok (false, pathNoCollision)

/-- Lines 109-128: the non-composite branch of
impl_validate(PathPtr_t): choose the validator, then run the core. -/
def implValidateAtomic (gpv : GraphPathValidation) (env : EdgeEnv)
    (a : AtomicPath) (reverse : Bool) : Except String (Bool × Path) :=
  implValidateCore (chosenValidation gpv env a) gpv.constraintGraph_ a reverse

mutual

/-- impl_validate(PathPtr_t) (lines 109-207): dispatch on whether the
path is a PathVector; for a PathVector, impl_validate(PathVectorPtr_t)
(lines 69-107) scans the sub-paths in the requested direction and stops
at the first sub-path that does not validate. -/
def implValidate (gpv : GraphPathValidation) (env : EdgeEnv) :
    Path → Bool → Except String (Bool × Path)
  | .atomic a, reverse => implValidateAtomic gpv env a reverse
  | .vector o d ps, reverse =>
    if reverse then
      match revGo gpv env ps with
      | .error e => .error e
      | .ok none => .ok (true, Path.vector o d ps)
      | .ok (some (n, failing, validSubPart)) =>
        .ok (false, Path.vector o d
          ((PathList.replicate n failing).append (.cons validSubPart .nil)))
    else
      match fwdGo gpv env ps with
      | .error e => .error e
      | .ok none => .ok (true, Path.vector o d ps)
      | .ok (some l) => .ok (false, Path.vector o d l)

/-- The forward loop (lines 90-102): ok none when every sub-path is
valid; ok (some l) with l the copied valid prefix followed by the valid
fragment of the first failing sub-path; error when a recursive call
throws. -/
def fwdGo (gpv : GraphPathValidation) (env : EdgeEnv) :
    PathList → Except String (Option PathList)
  | .nil => .ok none
  | .cons p ps =>
    match implValidate gpv env p false with
    | .error e => .error e
    | .ok (false, validSubPart) => .ok (some (.cons validSubPart .nil))
    | .ok (true, _) =>
      match fwdGo gpv env ps with
      | .error e => .error e
      | .ok none => .ok none
      | .ok (some l) => .ok (some (.cons p l))

/-- The reverse loop (lines 73-88), scanning from the last rank
downward: ok none when every sub-path is valid; on the first failure at
rank i, ok (some (n, failing, fragment)) where n is the number of ranks
above i — the loop body appends pathAtRank(i) (the failing sub-path)
n times, its loop variable v being unused — followed by the valid
fragment; error when a recursive call throws. -/
def revGo (gpv : GraphPathValidation) (env : EdgeEnv) :
    PathList → Except String (Option (Nat × Path × Path))
  | .nil => .ok none
  | .cons p ps =>
    match revGo gpv env ps with
    | .error e => .error e
    | .ok (some r) => .ok (some r)
    | .ok none =>
      match implValidate gpv env p true with
      | .error e => .error e
      | .ok (false, validSubPart) => .ok (some (ps.length, p, validSubPart))
      | .ok (true, _) => .ok none

end

/-- GraphPathValidation::validate (lines 57-67): in a release build the
surrounding asserts are no-ops, so it is impl_validate. -/
def GraphPathValidation.validate (gpv : GraphPathValidation)
    (env : EdgeEnv) (path : Path) (reverse : Bool) :
    Except String (Bool × Path) :=
  implValidate gpv env path reverse

mutual

/-- Well-formed path: every atomic (sub-)path ends no earlier than it
starts, as hpp::core paths do. -/
inductive Path.WF : Path → Prop
  | atomic (a : AtomicPath) : a.timeRange.1 ≤ a.timeRange.2 →
      Path.WF (.atomic a)
  | vector (o d : Nat) (ps : PathList) : PathList.WF ps →
      Path.WF (.vector o d ps)

/-- Well-formed list of sub-paths. -/
inductive PathList.WF : PathList → Prop
  | nil : PathList.WF .nil
  | cons {p : Path} {ps : PathList} : Path.WF p → PathList.WF ps →
      PathList.WF (.cons p ps)

end

/-- Contract of a continuous path validator, as the specification
assumes of the external collaborator: when it truncates, the returned
valid part is no longer (in time range) than the input path. -/
def ValidatorShortens (v : PathValidation) : Prop :=
  ∀ (p : Path) (reverse : Bool), (v p reverse).1 = false →
    Path.length (v p reverse).2 ≤ Path.length p

/-- Modelled from the spec: the body of Graph::getNodeSelectorByName
lives in graph.cc, which is not among the sources; graph.hh:70-72
declares it with "Return the NodeSelector with the given name if any,
NULL pointer if not found." and the spec states "lookup by name,
returns a null reference if absent - not an error".  Modelled as a
search of the graph's selector list by name, none standing for the
null pointer. -/
def Graph.getNodeSelectorByName (g : Graph) (n : String) :
    Option NodeSelector :=
  g.nodeSelectors_.find? (fun s => s.name == n)

/-- fcl::Transform3f, opaque to this development: only identity of the
value matters to the claims. -/
structure Transform3f where
  val : Int
deriving DecidableEq

/-- The Handle class of handle.hh (src/unnamed/part_000): its private
fields name_, localPosition_, joint_ and weakPtr_.  The joint is
identified by a pointer id; the weak pointer is opaque. -/
structure Handle where
  name_ : String
  localPosition_ : Transform3f
  joint_ : Nat
  weakPtr_ : Option Unit

/-- Handle::name() const. -/
def Handle.name (h : Handle) : String := h.name_

/-- Handle::name(n) - the name setter. -/
def Handle.setName (h : Handle) (n : String) : Handle := { h with name_ := n }

/-- Handle::joint() const. -/
def Handle.joint (h : Handle) : Nat := h.joint_

/-- Handle::joint(joint) - the joint setter. -/
def Handle.setJoint (h : Handle) (j : Nat) : Handle := { h with joint_ := j }

/-- Handle::localPosition() const. -/
def Handle.localPosition (h : Handle) : Transform3f := h.localPosition_

/-- Handle::clone() const - a copy of this (body not in the sources;
declared as returning a pointer to the copy of this). -/
def Handle.clone (h : Handle) : Handle := h

/-- Handle::create: the constructor stores name, localPosition and
joint, then init stores the weak pointer. -/
def Handle.create (n : String) (localPosition : Transform3f)
    (joint : Nat) : Handle :=
  { name_ := n, localPosition_ := localPosition, joint_ := joint,
    weakPtr_ := some () }

/-- The public operations of Handle that yield a (possibly updated)
Handle value: the name setter, the joint setter and clone.  The
remaining public operations (the three const accessors and the const
factories createGrasp, createPreGrasp, createPreGraspComplement) are
const member functions returning constraint objects, not handles, and
cannot touch the fields. -/
inductive HandleOp where
  | rename (n : String)
  | rebind (j : Nat)
  | clone

/-- Application of a public Handle operation. -/
def Handle.applyOp (h : Handle) : HandleOp → Handle
  | .rename n => h.setName n
  | .rebind j => h.setJoint j
  | .clone => h.clone

/- Concrete instances used by counterexamples and witnesses. -/

/-- A trivial atomic path: constant evaluation, no constraints. -/
def plainAtomic (t0 t1 : ℚ) : AtomicPath :=
  { timeRange := (t0, t1), eval := fun _ => some 0, constraints := none,
    outputSize := 1, outputDerivativeSize := 1 }

/-- C1 counterexample: the original path to validate. -/
def c1Path : AtomicPath := plainAtomic 0 4

/-- C1 counterexample: a delegate that always truncates to the first
half of c1Path. -/
def c1Delegate : PathValidation :=
  fun _ _ => (false, Path.atomic (c1Path.extract 0 2))

/-- C1 counterexample: classification never converges. -/
def c1Gpv : GraphPathValidation :=
  { pathValidation_ := c1Delegate,
    constraintGraph_ := ⟨[], fun _ => none⟩ }

/-- C1 counterexample: edge environment (never consulted). -/
def c1Env : EdgeEnv := ⟨fun _ => ⟨c1Delegate⟩⟩

/-- C1 witness: truncated part whose start evaluates to configuration 0
and whose end evaluates to configuration 1. -/
def w1Frag : AtomicPath :=
  { timeRange := (0, 2), eval := fun t => if t = 0 then some 0 else some 1,
    constraints := none, outputSize := 1, outputDerivativeSize := 1 }

/-- C1 witness: the original path. -/
def w1Path : AtomicPath := plainAtomic 0 4

/-- C1 witness: delegate truncating to w1Frag. -/
def w1Delegate : PathValidation := fun _ _ => (false, Path.atomic w1Frag)

/-- C1 witness: classification converges on configuration 0 only, so
the valid part's end fails to classify (the caught case). -/
def w1GpvCaught : GraphPathValidation :=
  { pathValidation_ := w1Delegate,
    constraintGraph_ := ⟨[], fun q => if q = 0 then some 5 else none⟩ }

/-- C1 witness: classification never converges, so the valid part's
start fails to classify (the propagating case). -/
def w1GpvThrow : GraphPathValidation :=
  { pathValidation_ := w1Delegate, constraintGraph_ := ⟨[], fun _ => none⟩ }

/-- C1 witness: edge environment (never consulted). -/
def w1Env : EdgeEnv := ⟨fun _ => ⟨w1Delegate⟩⟩

/-- C1 witness: truncated part that fails to evaluate everywhere. -/
def w1FragNoEval : AtomicPath :=
  { timeRange := (0, 2), eval := fun _ => none,
    constraints := none, outputSize := 1, outputDerivativeSize := 1 }

/-- C1 witness: delegate truncating to w1FragNoEval. -/
def w1DelegateNoEval : PathValidation :=
  fun _ _ => (false, Path.atomic w1FragNoEval)

/-- C1 witness: the valid part's start fails to evaluate. -/
def w1GpvEvalStart : GraphPathValidation :=
  { pathValidation_ := w1DelegateNoEval,
    constraintGraph_ := ⟨[], fun _ => some 5⟩ }

/-- C1 witness: truncated part evaluating at its start only. -/
def w1FragHalfEval : AtomicPath :=
  { timeRange := (0, 2), eval := fun t => if t = 0 then some 0 else none,
    constraints := none, outputSize := 1, outputDerivativeSize := 1 }

/-- C1 witness: delegate truncating to w1FragHalfEval. -/
def w1DelegateHalfEval : PathValidation :=
  fun _ _ => (false, Path.atomic w1FragHalfEval)

/-- C1 witness: the valid part's end fails to evaluate. -/
def w1GpvEvalEnd : GraphPathValidation :=
  { pathValidation_ := w1DelegateHalfEval,
    constraintGraph_ := ⟨[], fun q => if q = 0 then some 5 else none⟩ }

/-- C1 witness: delegate truncating to a fully evaluable, fully
classifiable fragment. -/
def w1DelegateGood : PathValidation :=
  fun _ _ => (false, Path.atomic (plainAtomic 0 2))

/-- C1 witness: fragment fine, original-path failures to be triggered
by the path itself; every configuration classifies to state 5. -/
def w1GpvOldEvalStart : GraphPathValidation :=
  { pathValidation_ := w1DelegateGood,
    constraintGraph_ := ⟨[], fun _ => some 5⟩ }

/-- C1 witness: fragment fine; configuration 9 fails to classify,
everything else lies in state 5. -/
def w1GpvSel : GraphPathValidation :=
  { pathValidation_ := w1DelegateGood,
    constraintGraph_ := ⟨[], fun q => if q = 9 then none else some 5⟩ }

/-- C1 witness: original path that fails to evaluate everywhere. -/
def w1PathNoEval : AtomicPath :=
  { timeRange := (0, 4), eval := fun _ => none,
    constraints := none, outputSize := 1, outputDerivativeSize := 1 }

/-- C1 witness: original path evaluating to the unclassifiable
configuration 9 at both endpoints. -/
def w1PathBadStart : AtomicPath :=
  { timeRange := (0, 4), eval := fun _ => some 9,
    constraints := none, outputSize := 1, outputDerivativeSize := 1 }

/-- C1 witness: original path evaluating at its start only. -/
def w1PathHalfEval : AtomicPath :=
  { timeRange := (0, 4), eval := fun t => if t = 0 then some 0 else none,
    constraints := none, outputSize := 1, outputDerivativeSize := 1 }

/-- C1 witness: original path whose end evaluates to the
unclassifiable configuration 9. -/
def w1PathBadEnd : AtomicPath :=
  { timeRange := (0, 4), eval := fun t => if t = 0 then some 0 else some 9,
    constraints := none, outputSize := 1, outputDerivativeSize := 1 }

/-- C2 witness: original path, endpoints evaluating to 0 and 1. -/
def w2Path : AtomicPath :=
  { timeRange := (0, 4), eval := fun t => if t = 0 then some 0 else some 1,
    constraints := none, outputSize := 1, outputDerivativeSize := 1 }

/-- C2 witness: truncated part, endpoints evaluating to 0 and 1 as
well, so both pairs classify identically. -/
def w2Frag : AtomicPath :=
  { timeRange := (0, 2), eval := fun t => if t = 0 then some 0 else some 1,
    constraints := none, outputSize := 1, outputDerivativeSize := 1 }

/-- C2 witness: delegate truncating to w2Frag. -/
def w2Delegate : PathValidation := fun _ _ => (false, Path.atomic w2Frag)

/-- C2 witness: configuration 0 lies in state 5, everything else in
state 7. -/
def w2Gpv : GraphPathValidation :=
  { pathValidation_ := w2Delegate,
    constraintGraph_ := ⟨[], fun q => if q = 0 then some 5 else some 7⟩ }

/-- C2 witness: edge environment (never consulted). -/
def w2Env : EdgeEnv := ⟨fun _ => ⟨w2Delegate⟩⟩

/-- C3 witness: a delegate that accepts every path whole. -/
def w3Delegate : PathValidation := fun p _ => (true, p)

/-- C3 witness instance. -/
def w3Gpv : GraphPathValidation :=
  { pathValidation_ := w3Delegate, constraintGraph_ := ⟨[], fun _ => some 0⟩ }

/-- C3 witness: edge environment. -/
def w3Env : EdgeEnv := ⟨fun _ => ⟨w3Delegate⟩⟩

/-- C4 witness: original path evaluating to configuration 0 at both
endpoints. -/
def w4Path : AtomicPath := plainAtomic 0 4

/-- C4 witness: truncated part whose end evaluates to configuration 1,
so its end classifies to a different state than the original end. -/
def w4Frag : AtomicPath :=
  { timeRange := (0, 2), eval := fun t => if t = 0 then some 0 else some 1,
    constraints := none, outputSize := 1, outputDerivativeSize := 1 }

/-- C4 witness: delegate truncating to w4Frag. -/
def w4Delegate : PathValidation := fun _ _ => (false, Path.atomic w4Frag)

/-- C4 witness: configuration 0 lies in state 5, everything else in
state 7. -/
def w4Gpv : GraphPathValidation :=
  { pathValidation_ := w4Delegate,
    constraintGraph_ := ⟨[], fun q => if q = 0 then some 5 else some 7⟩ }

/-- C4 witness: edge environment (never consulted). -/
def w4Env : EdgeEnv := ⟨fun _ => ⟨w4Delegate⟩⟩

/-- C5 witness: sub-path at rank 0, fully valid. -/
def w5Ok : AtomicPath := plainAtomic 0 1

/-- C5 witness: sub-path at rank 1, the first to fail. -/
def w5Bad : AtomicPath := plainAtomic 1 2

/-- C5 witness: sub-path at rank 2, never reached. -/
def w5Rest : AtomicPath := plainAtomic 2 3

/-- C5 witness: the valid fragment the delegate keeps of w5Bad. -/
def w5Frag : Path := Path.atomic (w5Bad.extract 1 (3/2))

/-- C5 witness: delegate failing exactly on the sub-path with time
range (1, 2). -/
def w5Delegate : PathValidation := fun p _ =>
  if p.timeRange = ((1 : ℚ), (2 : ℚ)) then (false, w5Frag) else (true, p)

/-- C5 witness instance. -/
def w5Gpv : GraphPathValidation :=
  { pathValidation_ := w5Delegate, constraintGraph_ := ⟨[], fun _ => some 0⟩ }

/-- C5 witness: edge environment (never consulted). -/
def w5Env : EdgeEnv := ⟨fun _ => ⟨w5Delegate⟩⟩

/-- C6 failing input: sub-path at rank 0, the one that fails. -/
def c6A : AtomicPath := plainAtomic 0 1

/-- C6 failing input: sub-path at rank 1, fully valid. -/
def c6B : AtomicPath := plainAtomic 1 2

/-- C6 failing input: sub-path at rank 2, fully valid. -/
def c6C : AtomicPath := plainAtomic 2 3

/-- C6 failing input: the valid fragment of the failing sub-path. -/
def c6Frag : Path := Path.atomic (c6A.extract 0 (1/2))

/-- C6 failing input: delegate failing exactly on the sub-path with
time range (0, 1). -/
def c6Delegate : PathValidation := fun p _ =>
  if p.timeRange = ((0 : ℚ), (1 : ℚ)) then (false, c6Frag) else (true, p)

/-- C6 failing input: every configuration classifies to state 0. -/
def c6Gpv : GraphPathValidation :=
  { pathValidation_ := c6Delegate, constraintGraph_ := ⟨[], fun _ => some 0⟩ }

/-- C6 failing input: edge environment (never consulted). -/
def c6Env : EdgeEnv := ⟨fun _ => ⟨c6Delegate⟩⟩

/-- C6 failing input: the composite path [c6A, c6B, c6C]. -/
def c6Input : Path :=
  Path.vector 1 1 (.cons (.atomic c6A) (.cons (.atomic c6B)
    (.cons (.atomic c6C) .nil)))

/-- C7 counterexample: a long sub-path at rank 0, the one that fails. -/
def c7Long : AtomicPath := plainAtomic 0 10

/-- C7 counterexample: a short sub-path at rank 1, fully valid. -/
def c7Short : AtomicPath := plainAtomic 10 11

/-- C7 counterexample: the valid fragment of the failing sub-path. -/
def c7Frag : Path := Path.atomic (c7Long.extract 0 5)

/-- C7 counterexample: delegate failing exactly on the sub-path with
time range (0, 10). -/
def c7Delegate : PathValidation := fun p _ =>
  if p.timeRange = ((0 : ℚ), (10 : ℚ)) then (false, c7Frag) else (true, p)

/-- C7 counterexample: every configuration classifies to state 0. -/
def c7Gpv : GraphPathValidation :=
  { pathValidation_ := c7Delegate, constraintGraph_ := ⟨[], fun _ => some 0⟩ }

/-- C7 counterexample: edge environment (never consulted). -/
def c7Env : EdgeEnv := ⟨fun _ => ⟨c7Delegate⟩⟩

/-- C7 counterexample: the composite path [c7Long, c7Short]. -/
def c7Input : Path :=
  Path.vector 1 1 (.cons (.atomic c7Long) (.cons (.atomic c7Short) .nil))

/-- C7 witness: a delegate that always truncates to the path itself,
trivially satisfying the shortening contract. -/
def w7Delegate : PathValidation := fun p _ => (false, p)

/-- C7 witness instance. -/
def w7Gpv : GraphPathValidation :=
  { pathValidation_ := w7Delegate, constraintGraph_ := ⟨[], fun _ => some 0⟩ }

/-- C7 witness: edge environment with the same delegate. -/
def w7Env : EdgeEnv := ⟨fun _ => ⟨w7Delegate⟩⟩

/-- C7 witness: a well-formed atomic path. -/
def w7Path : AtomicPath := plainAtomic 0 1

/-- C8 witness: a graph owning selectors named arm and hand. -/
def w8Graph : Graph :=
  ⟨[⟨"arm"⟩, ⟨"hand"⟩], fun _ => some 0⟩

/-- C10 witness: a delegate and an edge validator that differ. -/
def w10Default : PathValidation := fun p _ => (true, p)

/-- C10 witness: the edge's own path validation. -/
def w10EdgeVal : PathValidation := fun p _ => (false, p)

/-- C10 witness instance. -/
def w10Gpv : GraphPathValidation :=
  { pathValidation_ := w10Default, constraintGraph_ := ⟨[], fun _ => some 0⟩ }

/-- C10 witness: environment resolving every edge id to w10EdgeVal. -/
def w10Env : EdgeEnv := ⟨fun _ => ⟨w10EdgeVal⟩⟩

/-- C10 witness: a path whose constraints cast to a manipulation
ConstraintSet carrying edge 0. -/
def w10Edge : AtomicPath :=
  { plainAtomic 0 1 with constraints := some (.manipulation 0) }

/-- C10 witness: a path with no constraints. -/
def w10Plain : AtomicPath := plainAtomic 0 1

/-- Observable used to tell two validation results apart: the start
time of the first sub-path of a returned composite valid part. -/
def headSubpathStart : Except String (Bool × Path) → ℚ
  | .ok (_, .vector _ _ (.cons (.atomic a) _)) => a.timeRange.1
  | _ => 99

/- Theorems. -/

/-- Claim C3: for every non-composite path, if the continuous path
validator chosen for it reports the whole path valid, validate returns
success and validPart is exactly the input path (hence with the same
time range). -/
theorem c3_whole_path_valid (gpv : GraphPathValidation) (env : EdgeEnv)
    (a : AtomicPath) (reverse : Bool)
    (h : (chosenValidation gpv env a (Path.atomic a) reverse).1 = true) :
    gpv.validate env (Path.atomic a) reverse = .ok (true, Path.atomic a) := by
  have hv : chosenValidation gpv env a (Path.atomic a) reverse
      = (true, (chosenValidation gpv env a (Path.atomic a) reverse).2) := by
    rw [← h]
  unfold GraphPathValidation.validate implValidate implValidateAtomic
    implValidateCore
  rw [hv]

/-- Witness for C3 at a concrete instance: a delegate accepting the
whole path. -/
theorem c3_whole_path_valid_witness :
    w3Gpv.validate w3Env (Path.atomic (plainAtomic 0 1)) false
      = .ok (true, Path.atomic (plainAtomic 0 1)) :=
  c3_whole_path_valid w3Gpv w3Env (plainAtomic 0 1) false rfl

/-- Claim C2: for every non-composite path on which the continuous
validator truncates, if the start and end of the truncated sub-path
classify to the same graph states as the start and end of the original
path respectively, validate returns failure and validPart is exactly
the continuous validator's truncated sub-path, unmodified. -/
theorem c2_consistent_truncation (gpv : GraphPathValidation)
    (env : EdgeEnv) (a : AtomicPath) (reverse : Bool) (pnc : Path)
    (q1 q2 q3 q4 : Config) (s1 s2 s3 s4 : StateId)
    (hval : chosenValidation gpv env a (Path.atomic a) reverse = (false, pnc))
    (h1 : pnc.eval pnc.timeRange.1 = some q1)
    (hs1 : gpv.constraintGraph_.getState q1 = some s1)
    (h2 : pnc.eval pnc.timeRange.2 = some q2)
    (hs2 : gpv.constraintGraph_.getState q2 = some s2)
    (h3 : a.eval a.timeRange.1 = some q3)
    (hs3 : gpv.constraintGraph_.getState q3 = some s3)
    (h4 : a.eval a.timeRange.2 = some q4)
    (hs4 : gpv.constraintGraph_.getState q4 = some s4)
    (heq1 : s1 = s3) (heq2 : s2 = s4) :
    gpv.validate env (Path.atomic a) reverse = .ok (false, pnc) := by
  unfold GraphPathValidation.validate implValidate implValidateAtomic
    implValidateCore
  rw [hval]
  simp only [h1, hs1, h2, hs2, Path.eval, h3, hs3, h4, hs4]
  simp [heq1, heq2]

/-- Witness for C2 at a concrete instance where all four endpoints
classify and agree pairwise. -/
theorem c2_consistent_truncation_witness :
    w2Gpv.validate w2Env (Path.atomic w2Path) false
      = .ok (false, Path.atomic w2Frag) :=
  c2_consistent_truncation w2Gpv w2Env w2Path false (Path.atomic w2Frag)
    0 1 0 1 5 7 5 7 rfl rfl rfl rfl rfl rfl rfl rfl rfl rfl rfl

/-- Claim C4: for every non-composite path on which the continuous
validator truncates, if the endpoints of the truncated sub-path
classify to different graph states than the corresponding endpoints of
the original path, validate returns failure with validPart equal to the
collision-truncated sub-path as-is: lines 200-206 perform no further
truncation and no re-planning, returning pathNoCollision unchanged. -/
theorem c4_inconsistent_truncation (gpv : GraphPathValidation)
    (env : EdgeEnv) (a : AtomicPath) (reverse : Bool) (pnc : Path)
    (q1 q2 q3 q4 : Config) (s1 s2 s3 s4 : StateId)
    (hval : chosenValidation gpv env a (Path.atomic a) reverse = (false, pnc))
    (h1 : pnc.eval pnc.timeRange.1 = some q1)
    (hs1 : gpv.constraintGraph_.getState q1 = some s1)
    (h2 : pnc.eval pnc.timeRange.2 = some q2)
    (hs2 : gpv.constraintGraph_.getState q2 = some s2)
    (h3 : a.eval a.timeRange.1 = some q3)
    (hs3 : gpv.constraintGraph_.getState q3 = some s3)
    (h4 : a.eval a.timeRange.2 = some q4)
    (hs4 : gpv.constraintGraph_.getState q4 = some s4)
    (hne : ¬(s1 = s3 ∧ s2 = s4)) :
    gpv.validate env (Path.atomic a) reverse = .ok (false, pnc) := by
  unfold GraphPathValidation.validate implValidate implValidateAtomic
    implValidateCore
  rw [hval]
  simp only [h1, hs1, h2, hs2, Path.eval, h3, hs3, h4, hs4]
  simp [hne]

/-- Witness for C4 at a concrete instance where the truncated end
classifies to a state differing from the original end's state. -/
theorem c4_inconsistent_truncation_witness :
    w4Gpv.validate w4Env (Path.atomic w4Path) false
      = .ok (false, Path.atomic w4Frag) :=
  c4_inconsistent_truncation w4Gpv w4Env w4Path false (Path.atomic w4Frag)
    0 1 0 0 5 7 5 5 rfl rfl rfl rfl rfl rfl rfl rfl rfl (by decide)

/-- Claim C1, refuted as stated: classifying the start of the valid
sub-path fails to converge (getState throws, line 141, outside any
try block), and the failure propagates out of validate as an exception
instead of producing a zero-length validPart. -/
theorem c1_counterexample :
    c1Gpv.validate c1Env (Path.atomic c1Path) false
      = .error "getState failed on the initial configuration of the valid part."
    ∧ c1Gpv.validate c1Env (Path.atomic c1Path) false
      ≠ .ok (false, Path.atomic (c1Path.extract 0 0)) := by
  have key : c1Gpv.validate c1Env (Path.atomic c1Path) false
      = .error "getState failed on the initial configuration of the valid part." := rfl
  refine ⟨key, ?_⟩
  intro h
  exact Except.noConfusion (key.symm.trans h)

/-- Claim C1 as amended: for a non-composite path on which the
continuous validator truncates, of the eight convergence-failure sites
at the four endpoints, only a classification failure at the end of the
valid sub-path (lines 160-171, the single getState call guarded by
try/catch) makes validate return failure with validPart a zero-length
path at the original path's start time (conjunct 4); a failure
evaluating the valid sub-path's start or end (conjuncts 1, 3, lines
139-143), classifying the valid sub-path's start (conjunct 2, line
141), evaluating the original path's start or end (conjuncts 5, 7,
lines 172-181, 183-192), or classifying the original path's start or
end (conjuncts 6, 8, lines 182, 193) propagates out of validate as an
exception. -/
theorem c1_amended_classification_failure (gpv : GraphPathValidation)
    (env : EdgeEnv) (a : AtomicPath) (reverse : Bool) (pnc : Path)
    (hval : chosenValidation gpv env a (Path.atomic a) reverse = (false, pnc)) :
    (pnc.eval pnc.timeRange.1 = none →
      gpv.validate env (Path.atomic a) reverse
        = .error "Initial configuration of the valid part cannot be projected.")
    ∧ (∀ (q1 : Config), pnc.eval pnc.timeRange.1 = some q1 →
      gpv.constraintGraph_.getState q1 = none →
      gpv.validate env (Path.atomic a) reverse
        = .error "getState failed on the initial configuration of the valid part.")
    ∧ (∀ (q1 : Config) (s1 : StateId),
      pnc.eval pnc.timeRange.1 = some q1 →
      gpv.constraintGraph_.getState q1 = some s1 →
      pnc.eval pnc.timeRange.2 = none →
      gpv.validate env (Path.atomic a) reverse
        = .error "End configuration of the valid part cannot be projected.")
    ∧ (∀ (q1 : Config) (s1 : StateId) (q2 : Config),
      pnc.eval pnc.timeRange.1 = some q1 →
      gpv.constraintGraph_.getState q1 = some s1 →
      pnc.eval pnc.timeRange.2 = some q2 →
      gpv.constraintGraph_.getState q2 = none →
      gpv.validate env (Path.atomic a) reverse
        = .ok (false, Path.atomic (a.extract a.timeRange.1 a.timeRange.1)))
    ∧ (∀ (q1 : Config) (s1 : StateId) (q2 : Config) (s2 : StateId),
      pnc.eval pnc.timeRange.1 = some q1 →
      gpv.constraintGraph_.getState q1 = some s1 →
      pnc.eval pnc.timeRange.2 = some q2 →
      gpv.constraintGraph_.getState q2 = some s2 →
      a.eval a.timeRange.1 = none →
      gpv.validate env (Path.atomic a) reverse
        = .error "Initial configuration of the path to be validated failed to be projected.")
    ∧ (∀ (q1 : Config) (s1 : StateId) (q2 : Config) (s2 : StateId)
       (q3 : Config),
      pnc.eval pnc.timeRange.1 = some q1 →
      gpv.constraintGraph_.getState q1 = some s1 →
      pnc.eval pnc.timeRange.2 = some q2 →
      gpv.constraintGraph_.getState q2 = some s2 →
      a.eval a.timeRange.1 = some q3 →
      gpv.constraintGraph_.getState q3 = none →
      gpv.validate env (Path.atomic a) reverse
        = .error "getState failed on the initial configuration of the path.")
    ∧ (∀ (q1 : Config) (s1 : StateId) (q2 : Config) (s2 : StateId)
       (q3 : Config) (s3 : StateId),
      pnc.eval pnc.timeRange.1 = some q1 →
      gpv.constraintGraph_.getState q1 = some s1 →
      pnc.eval pnc.timeRange.2 = some q2 →
      gpv.constraintGraph_.getState q2 = some s2 →
      a.eval a.timeRange.1 = some q3 →
      gpv.constraintGraph_.getState q3 = some s3 →
      a.eval a.timeRange.2 = none →
      gpv.validate env (Path.atomic a) reverse
        = .error "End configuration of the path to be validated failed to be projected.")
    ∧ (∀ (q1 : Config) (s1 : StateId) (q2 : Config) (s2 : StateId)
       (q3 : Config) (s3 : StateId) (q4 : Config),
      pnc.eval pnc.timeRange.1 = some q1 →
      gpv.constraintGraph_.getState q1 = some s1 →
      pnc.eval pnc.timeRange.2 = some q2 →
      gpv.constraintGraph_.getState q2 = some s2 →
      a.eval a.timeRange.1 = some q3 →
      gpv.constraintGraph_.getState q3 = some s3 →
      a.eval a.timeRange.2 = some q4 →
      gpv.constraintGraph_.getState q4 = none →
      gpv.validate env (Path.atomic a) reverse
        = .error "getState failed on the end configuration of the path.") := by
  refine ⟨?_, ?_, ?_, ?_, ?_, ?_, ?_, ?_⟩
  · intro h1
    unfold GraphPathValidation.validate implValidate implValidateAtomic
      implValidateCore
    rw [hval]
    simp only [h1]
  · intro q1 h1 hg1
    unfold GraphPathValidation.validate implValidate implValidateAtomic
      implValidateCore
    rw [hval]
    simp only [h1, hg1]
  · intro q1 s1 h1 hg1 h2
    unfold GraphPathValidation.validate implValidate implValidateAtomic
      implValidateCore
    rw [hval]
    simp only [h1, hg1, h2]
  · intro q1 s1 q2 h1 hg1 h2 hg2
    unfold GraphPathValidation.validate implValidate implValidateAtomic
      implValidateCore
    rw [hval]
    simp only [h1, hg1, h2, hg2]
  · intro q1 s1 q2 s2 h1 hg1 h2 hg2 h3
    unfold GraphPathValidation.validate implValidate implValidateAtomic
      implValidateCore
    rw [hval]
    simp only [h1, hg1, h2, hg2, h3]
  · intro q1 s1 q2 s2 q3 h1 hg1 h2 hg2 h3 hg3
    unfold GraphPathValidation.validate implValidate implValidateAtomic
      implValidateCore
    rw [hval]
    simp only [h1, hg1, h2, hg2, h3, hg3]
  · intro q1 s1 q2 s2 q3 s3 h1 hg1 h2 hg2 h3 hg3 h4
    unfold GraphPathValidation.validate implValidate implValidateAtomic
      implValidateCore
    rw [hval]
    simp only [h1, hg1, h2, hg2, h3, hg3, h4]
  · intro q1 s1 q2 s2 q3 s3 q4 h1 hg1 h2 hg2 h3 hg3 h4 hg4
    unfold GraphPathValidation.validate implValidate implValidateAtomic
      implValidateCore
    rw [hval]
    simp only [h1, hg1, h2, hg2, h3, hg3, h4, hg4]

/-- Witness for the amended C1: one concrete run per conjunct - the
caught destState case yields the zero-length validPart at the original
start, and each of the seven other convergence-failure sites
propagates out of validate with its exception message. -/
theorem c1_amended_classification_failure_witness :
    w1GpvEvalStart.validate w1Env (Path.atomic w1Path) false
      = .error "Initial configuration of the valid part cannot be projected."
    ∧ w1GpvThrow.validate w1Env (Path.atomic w1Path) false
      = .error "getState failed on the initial configuration of the valid part."
    ∧ w1GpvEvalEnd.validate w1Env (Path.atomic w1Path) false
      = .error "End configuration of the valid part cannot be projected."
    ∧ w1GpvCaught.validate w1Env (Path.atomic w1Path) false
      = .ok (false, Path.atomic (w1Path.extract 0 0))
    ∧ w1GpvOldEvalStart.validate w1Env (Path.atomic w1PathNoEval) false
      = .error "Initial configuration of the path to be validated failed to be projected."
    ∧ w1GpvSel.validate w1Env (Path.atomic w1PathBadStart) false
      = .error "getState failed on the initial configuration of the path."
    ∧ w1GpvOldEvalStart.validate w1Env (Path.atomic w1PathHalfEval) false
      = .error "End configuration of the path to be validated failed to be projected."
    ∧ w1GpvSel.validate w1Env (Path.atomic w1PathBadEnd) false
      = .error "getState failed on the end configuration of the path." := by
  refine ⟨?_, ?_, ?_, ?_, ?_, ?_, ?_, ?_⟩
  · exact (c1_amended_classification_failure w1GpvEvalStart w1Env w1Path
      false (Path.atomic w1FragNoEval) rfl).1 rfl
  · exact (c1_amended_classification_failure w1GpvThrow w1Env w1Path
      false (Path.atomic w1Frag) rfl).2.1 0 rfl rfl
  · exact (c1_amended_classification_failure w1GpvEvalEnd w1Env w1Path
      false (Path.atomic w1FragHalfEval) rfl).2.2.1 0 5 rfl rfl rfl
  · exact (c1_amended_classification_failure w1GpvCaught w1Env w1Path
      false (Path.atomic w1Frag) rfl).2.2.2.1 0 5 1 rfl rfl rfl rfl
  · exact (c1_amended_classification_failure w1GpvOldEvalStart w1Env
      w1PathNoEval false (Path.atomic (plainAtomic 0 2)) rfl).2.2.2.2.1
      0 5 0 5 rfl rfl rfl rfl rfl
  · exact (c1_amended_classification_failure w1GpvSel w1Env
      w1PathBadStart false (Path.atomic (plainAtomic 0 2)) rfl).2.2.2.2.2.1
      0 5 0 5 9 rfl rfl rfl rfl rfl rfl
  · exact (c1_amended_classification_failure w1GpvOldEvalStart w1Env
      w1PathHalfEval false (Path.atomic (plainAtomic 0 2)) rfl).2.2.2.2.2.2.1
      0 5 0 5 0 5 rfl rfl rfl rfl rfl rfl rfl
  · exact (c1_amended_classification_failure w1GpvSel w1Env
      w1PathBadEnd false (Path.atomic (plainAtomic 0 2)) rfl).2.2.2.2.2.2.2
      0 5 0 5 0 5 9 rfl rfl rfl rfl rfl rfl rfl rfl

/-- Claim C10: the continuous validator impl_validate delegates to for
a non-composite path is chosen by the path's constraints (lines
124-128): when they cast to a manipulation ConstraintSet carrying an
edge, the edge's own path validation is used (the delegate supplied at
construction is irrelevant); otherwise the constructed delegate is
used. -/
theorem c10_validator_dispatch (gpv : GraphPathValidation)
    (env : EdgeEnv) (a : AtomicPath) (reverse : Bool) :
    (∀ eid, a.constraints = some (PathConstraints.manipulation eid) →
      gpv.validate env (Path.atomic a) reverse
        = implValidateCore (env.edge eid).pathValidation
            gpv.constraintGraph_ a reverse)
    ∧ ((∀ eid, a.constraints ≠ some (PathConstraints.manipulation eid)) →
      gpv.validate env (Path.atomic a) reverse
        = implValidateCore gpv.pathValidation_
            gpv.constraintGraph_ a reverse) := by
  constructor
  · intro eid h
    unfold GraphPathValidation.validate implValidate implValidateAtomic
      chosenValidation
    rw [h]
  · intro h
    unfold GraphPathValidation.validate implValidate implValidateAtomic
      chosenValidation
    cases hc : a.constraints with
    | none => rfl
    | some c =>
      cases c with
      | manipulation eid => exact absurd hc (h eid)
      | plain => rfl

/-- Witness for C10: with an edge-carrying path the edge's validator is
consulted; with an unconstrained path the delegate is. -/
theorem c10_validator_dispatch_witness :
    w10Gpv.validate w10Env (Path.atomic w10Edge) false
      = implValidateCore w10EdgeVal w10Gpv.constraintGraph_ w10Edge false
    ∧ w10Gpv.validate w10Env (Path.atomic w10Plain) false
      = implValidateCore w10Default w10Gpv.constraintGraph_ w10Plain false :=
  ⟨(c10_validator_dispatch w10Gpv w10Env w10Edge false).1 0 rfl,
   (c10_validator_dispatch w10Gpv w10Env w10Plain false).2
     (fun eid h => by simp [w10Plain, plainAtomic] at h)⟩

/-- The forward loop reports every sub-path valid when each recursive
validation succeeds. -/
theorem fwdGo_all_valid (gpv : GraphPathValidation) (env : EdgeEnv)
    (ps : List Path)
    (h : ∀ p ∈ ps, ∃ vp, implValidate gpv env p false = .ok (true, vp)) :
    fwdGo gpv env (PathList.ofList ps) = .ok none := by
  induction ps with
  | nil => rfl
  | cons p ps ih =>
    obtain ⟨vp, hvp⟩ := h p (List.mem_cons_self p ps)
    have ih2 := ih (fun q hq => h q (List.mem_cons_of_mem p hq))
    simp only [PathList.ofList]
    unfold fwdGo
    rw [hvp, ih2]

/-- The forward loop stops at the first failing sub-path and returns
the copied valid prefix followed by that sub-path's valid fragment. -/
theorem fwdGo_first_fail (gpv : GraphPathValidation) (env : EdgeEnv)
    (pre : List Path) (failing : Path) (rest : List Path) (frag : Path)
    (hpre : ∀ p ∈ pre, ∃ vp, implValidate gpv env p false = .ok (true, vp))
    (hfail : implValidate gpv env failing false = .ok (false, frag)) :
    fwdGo gpv env (PathList.ofList (pre ++ failing :: rest))
      = .ok (some (PathList.ofList (pre ++ [frag]))) := by
  induction pre with
  | nil =>
    simp only [List.nil_append, PathList.ofList]
    unfold fwdGo
    rw [hfail]
  | cons p pre ih =>
    obtain ⟨vp, hvp⟩ := hpre p (List.mem_cons_self p pre)
    have ih2 := ih (fun q hq => hpre q (List.mem_cons_of_mem p hq))
    have step : PathList.ofList ((p :: pre) ++ failing :: rest)
        = PathList.cons p (PathList.ofList (pre ++ failing :: rest)) := rfl
    have step2 : PathList.ofList ((p :: pre) ++ [frag])
        = PathList.cons p (PathList.ofList (pre ++ [frag])) := rfl
    rw [step, step2]
    unfold fwdGo
    rw [hvp, ih2]

/-- Claim C5: validating a composite path forward, if the sub-path at
rank k is the first to fail (pre lists ranks 0..k-1, all valid), the
result is failure with validPart a composite of sub-paths 0..k-1
unmodified followed by the valid fragment of rank k; if every sub-path
passes, the result is success with validPart the input itself. -/
theorem c5_forward_composite :
    (∀ (gpv : GraphPathValidation) (env : EdgeEnv) (o d : Nat)
       (pre : List Path) (failing : Path) (rest : List Path) (frag : Path),
      (∀ p ∈ pre, ∃ vp, implValidate gpv env p false = .ok (true, vp)) →
      implValidate gpv env failing false = .ok (false, frag) →
      gpv.validate env
          (Path.vector o d (PathList.ofList (pre ++ failing :: rest))) false
        = .ok (false, Path.vector o d (PathList.ofList (pre ++ [frag]))))
    ∧ (∀ (gpv : GraphPathValidation) (env : EdgeEnv) (o d : Nat)
       (ps : List Path),
      (∀ p ∈ ps, ∃ vp, implValidate gpv env p false = .ok (true, vp)) →
      gpv.validate env (Path.vector o d (PathList.ofList ps)) false
        = .ok (true, Path.vector o d (PathList.ofList ps))) := by
  constructor
  · intro gpv env o d pre failing rest frag hpre hfail
    unfold GraphPathValidation.validate implValidate
    rw [if_neg Bool.false_ne_true,
      fwdGo_first_fail gpv env pre failing rest frag hpre hfail]
  · intro gpv env o d ps h
    unfold GraphPathValidation.validate implValidate
    rw [if_neg Bool.false_ne_true, fwdGo_all_valid gpv env ps h]

/-- Witness for C5: rank 0 valid, rank 1 the first failure, rank 2
behind it; and separately an all-valid composite. -/
theorem c5_forward_composite_witness :
    w5Gpv.validate w5Env
        (Path.vector 1 1 (PathList.ofList
          ([Path.atomic w5Ok] ++ Path.atomic w5Bad :: [Path.atomic w5Rest])))
        false
      = .ok (false, Path.vector 1 1
          (PathList.ofList ([Path.atomic w5Ok] ++ [w5Frag])))
    ∧ w5Gpv.validate w5Env
        (Path.vector 1 1 (PathList.ofList [Path.atomic w5Ok])) false
      = .ok (true, Path.vector 1 1 (PathList.ofList [Path.atomic w5Ok])) := by
  constructor
  · refine c5_forward_composite.1 w5Gpv w5Env 1 1
      [Path.atomic w5Ok] (Path.atomic w5Bad) [Path.atomic w5Rest] w5Frag
      ?_ rfl
    intro p hp
    rw [List.mem_singleton] at hp
    subst hp
    exact ⟨Path.atomic w5Ok, rfl⟩
  · refine c5_forward_composite.2 w5Gpv w5Env 1 1 [Path.atomic w5Ok] ?_
    intro p hp
    rw [List.mem_singleton] at hp
    subst hp
    exact ⟨Path.atomic w5Ok, rfl⟩

/-- Claim C6, the code evaluated at the failing input: validating the
composite [c6A, c6B, c6C] in reverse, where ranks 2 and 1 are fully
valid and rank 0 fails with fragment c6Frag, the reverse loop (lines
79-85) appends pathAtRank(i) - the failing sub-path c6A - once per
higher rank (its loop variable v is unused), so validPart is
[c6A, c6A, c6Frag] instead of the accumulated valid prefix
[c6C, c6B, c6Frag] that the claim describes. -/
theorem c6_reverse_code_bug_eval :
    c6Gpv.validate c6Env c6Input true
      = .ok (false, Path.vector 1 1 (.cons (Path.atomic c6A)
          (.cons (Path.atomic c6A) (.cons c6Frag .nil))))
    ∧ c6Gpv.validate c6Env c6Input true
      ≠ .ok (false, Path.vector 1 1 (.cons (Path.atomic c6C)
          (.cons (Path.atomic c6B) (.cons c6Frag .nil)))) := by
  have key : c6Gpv.validate c6Env c6Input true
      = .ok (false, Path.vector 1 1 (.cons (Path.atomic c6A)
          (.cons (Path.atomic c6A) (.cons c6Frag .nil)))) := rfl
  refine ⟨key, ?_⟩
  intro h
  have h2 := key.symm.trans h
  have h3 := congrArg headSubpathStart h2
  norm_num [headSubpathStart, c6A, c6C, plainAtomic] at h3

mutual

/-- A well-formed path has a nonnegative time-range length. -/
theorem Path.WF.length_nonneg : ∀ {p : Path}, Path.WF p →
    0 ≤ Path.length p
  | .atomic a, .atomic _ h => by
    simp only [Path.length]
    linarith
  | .vector o d ps, .vector _ _ _ h => by
    simp only [Path.length]
    exact PathList.WF.lengthSum_nonneg h

/-- A well-formed list of sub-paths has a nonnegative total length. -/
theorem PathList.WF.lengthSum_nonneg : ∀ {ps : PathList},
    PathList.WF ps → 0 ≤ PathList.lengthSum ps
  | .nil, _ => by simp [PathList.lengthSum]
  | .cons p ps, .cons hp hps => by
    have h1 := Path.WF.length_nonneg hp
    have h2 := PathList.WF.lengthSum_nonneg hps
    simp only [PathList.lengthSum]
    linarith

end

/-- The non-composite core never returns a valid part longer than its
input: it returns the path itself, the delegate's truncation (bounded
by the shortening contract), or a zero-length extract. -/
theorem implValidateCore_length_le (validation : PathValidation)
    (g : Graph) (a : AtomicPath) (reverse : Bool)
    (hc : ValidatorShortens validation)
    (hwf : a.timeRange.1 ≤ a.timeRange.2)
    (b : Bool) (vp : Path)
    (h : implValidateCore validation g a reverse = .ok (b, vp)) :
    Path.length vp ≤ Path.length (Path.atomic a) := by
  have hnn : (0 : ℚ) ≤ Path.length (Path.atomic a) := by
    simp only [Path.length]
    linarith
  unfold implValidateCore at h
  split at h
  next snd heq =>
    simp only [Except.ok.injEq, Prod.mk.injEq] at h
    rw [← h.2]
  next pnc heq =>
    have hle : Path.length pnc ≤ Path.length (Path.atomic a) := by
      have h2 := hc (Path.atomic a) reverse (by rw [heq])
      rw [heq] at h2
      exact h2
    repeat' split at h
    all_goals first
      | exact Except.noConfusion h
      | (simp only [Except.ok.injEq, Prod.mk.injEq] at h
         rw [← h.2]
         first
           | exact hle
           | (simp only [Path.length, AtomicPath.extract]
              linarith))

mutual

/-- Forward validation never lengthens: the valid part of any
well-formed path validated in the forward direction is no longer than
the path, provided every continuous validator obeys the shortening
contract. -/
theorem implValidate_fwd_length_le (gpv : GraphPathValidation)
    (env : EdgeEnv)
    (hd : ValidatorShortens gpv.pathValidation_)
    (he : ∀ eid, ValidatorShortens (env.edge eid).pathValidation) :
    ∀ (p : Path), Path.WF p → ∀ (b : Bool) (vp : Path),
      implValidate gpv env p false = .ok (b, vp) →
      Path.length vp ≤ Path.length p
  | .atomic a, hwf, b, vp, h => by
    cases hwf with
    | atomic _ ha =>
      have hcv : ValidatorShortens (chosenValidation gpv env a) := by
        unfold chosenValidation
        rcases a.constraints with _ | c
        · exact hd
        · cases c
          · exact he _
          · exact hd
      unfold implValidate implValidateAtomic at h
      exact implValidateCore_length_le _ _ a false hcv ha b vp h
  | .vector o d ps, hwf, b, vp, h => by
    cases hwf with
    | vector _ _ _ hps =>
      unfold implValidate at h
      rw [if_neg Bool.false_ne_true] at h
      split at h
      next e heq => exact Except.noConfusion h
      next heq =>
        simp only [Except.ok.injEq, Prod.mk.injEq] at h
        rw [← h.2]
      next l heq =>
        simp only [Except.ok.injEq, Prod.mk.injEq] at h
        rw [← h.2]
        simp only [Path.length]
        exact fwdGo_length_le gpv env hd he ps hps l heq

/-- The forward loop's failure result is no longer than the scanned
sub-paths: the untouched prefix plus a fragment bounded by its
sub-path. -/
theorem fwdGo_length_le (gpv : GraphPathValidation) (env : EdgeEnv)
    (hd : ValidatorShortens gpv.pathValidation_)
    (he : ∀ eid, ValidatorShortens (env.edge eid).pathValidation) :
    ∀ (ps : PathList), PathList.WF ps → ∀ (l : PathList),
      fwdGo gpv env ps = .ok (some l) →
      PathList.lengthSum l ≤ PathList.lengthSum ps
  | .nil, _, l, h => by
    unfold fwdGo at h
    simp at h
  | .cons p ps, hwf, l, h => by
    cases hwf with
    | cons hp hps =>
      unfold fwdGo at h
      split at h
      next e heq => exact Except.noConfusion h
      next vpi heq =>
        have hfrag := implValidate_fwd_length_le gpv env hd he p hp
          false vpi heq
        have h0 := PathList.WF.lengthSum_nonneg hps
        have hvpnn := Path.WF.length_nonneg hp
        simp only [Except.ok.injEq, Option.some.injEq] at h
        rw [← h]
        simp only [PathList.lengthSum]
        linarith
      next snd heq =>
        split at h
        next e heq2 => exact Except.noConfusion h
        next heq2 => simp at h
        next l2 heq2 =>
          have hrec := fwdGo_length_le gpv env hd he ps hps l2 heq2
          simp only [Except.ok.injEq, Option.some.injEq] at h
          rw [← h]
          simp only [PathList.lengthSum]
          linarith

end

/-- Claim C7, refuted as stated: validated in the reverse direction,
the composite [c7Long, c7Short] of total length 11 yields a validPart
[c7Long, c7Frag] of length 15, because the reverse loop appends copies
of the failing sub-path itself. -/
theorem c7_counterexample_reverse_growth :
    c7Gpv.validate c7Env c7Input true
      = .ok (false, Path.vector 1 1
          (.cons (Path.atomic c7Long) (.cons c7Frag .nil)))
    ∧ Path.length c7Input
      < Path.length (Path.vector 1 1
          (.cons (Path.atomic c7Long) (.cons c7Frag .nil))) := by
  constructor
  · rfl
  · norm_num [c7Input, Path.length, PathList.lengthSum, c7Long, c7Short,
      c7Frag, plainAtomic, AtomicPath.extract]

/-- Claim C7 as amended: restricted to the forward direction (the
reverse composite loop, guarded by an always-failing assert and marked
untested, can lengthen), the validPart returned by validate has a
time-range length no greater than the input path's, for every
well-formed path, assuming the continuous validators never return a
truncation longer than their input. -/
theorem c7_amended_forward_length_le (gpv : GraphPathValidation)
    (env : EdgeEnv)
    (hd : ValidatorShortens gpv.pathValidation_)
    (he : ∀ eid, ValidatorShortens (env.edge eid).pathValidation)
    (p : Path) (hwf : Path.WF p) (b : Bool) (vp : Path)
    (h : gpv.validate env p false = .ok (b, vp)) :
    Path.length vp ≤ Path.length p :=
  implValidate_fwd_length_le gpv env hd he p hwf b vp h

/-- Witness for the amended C7 at a concrete instance: a delegate that
truncates to the path itself, an atomic path of length 1. -/
theorem c7_amended_forward_length_le_witness :
    Path.length (Path.atomic w7Path) ≤ Path.length (Path.atomic w7Path) :=
  c7_amended_forward_length_le w7Gpv w7Env
    (fun p r _ => le_refl (Path.length p))
    (fun _ p r _ => le_refl (Path.length p))
    (Path.atomic w7Path)
    (Path.WF.atomic w7Path (by norm_num [w7Path, plainAtomic]))
    false (Path.atomic w7Path) rfl

/-- Claim C8: for every name not present among the graph's selectors,
getNodeSelectorByName returns none (the null reference) rather than
raising an error; for a present name it returns a selector bearing that
name. -/
theorem c8_selector_lookup :
    (∀ (g : Graph) (n : String),
      (∀ s ∈ g.nodeSelectors_, s.name ≠ n) →
      g.getNodeSelectorByName n = none)
    ∧ (∀ (g : Graph) (n : String),
      (∃ s ∈ g.nodeSelectors_, s.name = n) →
      ∃ sel : NodeSelector,
        g.getNodeSelectorByName n = some sel ∧ sel.name = n) := by
  constructor
  · intro g n h
    unfold Graph.getNodeSelectorByName
    rw [List.find?_eq_none]
    intro s hs
    simp [h s hs]
  · rintro g n ⟨s, hs, hn⟩
    unfold Graph.getNodeSelectorByName
    have hsome : (g.nodeSelectors_.find? (fun s => s.name == n)).isSome := by
      rw [List.find?_isSome]
      exact ⟨s, hs, by simp [hn]⟩
    obtain ⟨sel, hsel⟩ := Option.isSome_iff_exists.mp hsome
    refine ⟨sel, hsel, ?_⟩
    have hp := List.find?_some hsel
    simpa using hp

/-- Witness for C8: leg is absent from w8Graph, hand is present. -/
theorem c8_selector_lookup_witness :
    w8Graph.getNodeSelectorByName "leg" = none
    ∧ ∃ sel : NodeSelector,
        w8Graph.getNodeSelectorByName "hand" = some sel
        ∧ sel.name = "hand" := by
  constructor
  · exact c8_selector_lookup.1 w8Graph "leg" (by decide)
  · refine c8_selector_lookup.2 w8Graph "hand" ?_
    exact ⟨⟨"hand"⟩, by simp [w8Graph], rfl⟩

/-- Claim C9: after construction, every public Handle operation that
yields a handle leaves localPosition (and the weak self-pointer)
unchanged - the only fields an operation may change are the name and
the joint binding - and construction stores the given local position
verbatim. -/
theorem c9_handle_frame :
    (∀ (h : Handle) (op : HandleOp),
      (h.applyOp op).localPosition = h.localPosition
      ∧ (h.applyOp op).weakPtr_ = h.weakPtr_)
    ∧ (∀ (n : String) (t : Transform3f) (j : Nat),
      (Handle.create n t j).localPosition = t) := by
  constructor
  · intro h op
    cases op <;>
      simp [Handle.applyOp, Handle.setName, Handle.setJoint, Handle.clone,
        Handle.localPosition]
  · intro n t j
    rfl

end HppManipulation
